import Mathlib

/-!
A verification development for the protocol-identification and zero-copy
parsing engine of this repository: the MySQL server-greeting parser
(src/libmerc/mysql.hpp), the Tofsee initial-message de-obfuscator
(src/libmerc/tofsee.hpp), the UDP protocol dispatcher (src/libmerc/udp.cc)
and the HTTP header scanner (src/http.h).

The cursor primitives (struct datum, encoded<T>, the extractor functions
and the masked-compare helpers) live in datum.h / extractor.h / utils.h,
which are not part of the source tree given here; those primitives are
modelled from the specification (sections 3, 4.1 and 4.2), as marked on
each definition.  Machine integers are modelled as Nat with explicit
truncation where the source truncates.
-/

/-- Modelled from the spec: `struct datum` (datum.h, not in the source tree).
A bounds-tracked non-owning view over a byte range: `off` is the offset of
`data` in the ambient buffer, `bytes` the bytes in `[data, data_end)`, and
`isNull` the sticky parse-failed state.  Nulling a cursor moves `data` up to
`data_end` (so `length()` reports 0 consistently, spec section 4.1) and sets
the sticky flag; every operation on a null cursor preserves the null state. -/
structure datum where
  off : Nat
  bytes : List Nat
  isNull : Bool
deriving DecidableEq

namespace datum

/-- Modelled from the spec: `datum::length()` = `data_end - data`, zero when
null (spec section 3). -/
def length (d : datum) : Nat :=
  if d.isNull then 0 else d.bytes.length

/-- Modelled from the spec: `datum::set_null()`; the cursor becomes
permanently parse-failed, `data` is moved to `data_end` so that `length()`
reports 0 (spec sections 3 and 4.1). -/
def set_null (d : datum) : datum :=
  { off := d.off + d.bytes.length, bytes := [], isNull := true }

/-- A null datum anchored at offset `o` (the `datum{NULL,NULL}` value). -/
def nullAt (o : Nat) : datum :=
  { off := o, bytes := [], isNull := true }

/-- Modelled from the spec: `datum::skip(n)` advances `data` by `n`;
advancing past `data_end` nulls the cursor (spec section 3). -/
def skip (d : datum) (n : Nat) : datum :=
  if d.isNull then d
  else if n ≤ d.bytes.length then { off := d.off + n, bytes := d.bytes.drop n, isNull := false }
  else d.set_null

/-- Modelled from the spec: `datum::parse(r, n)` / `datum{r, n}` consumes
exactly `n` bytes from the source cursor into a sub-view; on underflow both
the result and the source are nulled (spec sections 3, 4.1).  Returns
(sub-view, advanced source). -/
def parseN (d : datum) (n : Nat) : datum × datum :=
  if d.isNull ∨ d.bytes.length < n then (nullAt d.off, d.set_null)
  else ({ off := d.off, bytes := d.bytes.take n, isNull := false },
        { off := d.off + n, bytes := d.bytes.drop n, isNull := false })

/-- Byte at index `i` of the view (0 when out of range; only read under a
bounds guard in the modelled code). -/
def byteAt (d : datum) (i : Nat) : Nat :=
  d.bytes.getD i 0

/-- The byte `*(data_end - 1)`, i.e. the last byte of the view (only read
under a length guard in the modelled code). -/
def lastByte (d : datum) : Nat :=
  d.bytes.getD (d.bytes.length - 1) 0

/-- Modelled from the spec: `datum::find_delim(b)` reports the offset of the
first occurrence of byte `b` in the remaining range, or "not found"
(spec section 3). -/
def findByte : List Nat → Nat → Option Nat
  | [], _ => none
  | b :: rest, t => if b = t then some 0 else (findByte rest t).map (· + 1)

/-- `find_delim` on a datum: none when the cursor is null or the byte is
absent. -/
def find_delim (d : datum) (b : Nat) : Option Nat :=
  if d.isNull then none else findByte d.bytes b

/-- Modelled from the spec: the fixed-width integer decode of
`encoded<T>` — big-endian (network order) by default, little-endian when the
explicit flag is set (spec section 4.2). -/
def decodeUInt (bs : List Nat) (littleEndian : Bool) : Nat :=
  (if littleEndian then bs.reverse else bs).foldl (fun acc b => acc * 256 + b) 0

/-- Modelled from the spec: `encoded<T>{d, littleEndian}` consumes exactly
`n = sizeof(T)` bytes from the cursor, nulling it on insufficient data
(spec section 4.2); the value is 0 on underflow (fields of an invalid record
are never serialized).  Returns (value, advanced cursor). -/
def encoded (d : datum) (n : Nat) (littleEndian : Bool) : Nat × datum :=
  if d.isNull ∨ d.bytes.length < n then (0, d.set_null)
  else (decodeUInt (d.bytes.take n) littleEndian,
        { off := d.off + n, bytes := d.bytes.drop n, isNull := false })

/-- `datum::is_not_null()`: the cursor is not in the parse-failed state. -/
def is_not_null (d : datum) : Bool :=
  !d.isNull

end datum

namespace mysql_consts

/-- The fixed ordered collation-name table `mysql_consts::mysql_collations`
(mysql.hpp lines 108-381), transcribed verbatim from the source. -/
def mysql_collations : List String :=
  ["big5_chinese_ci",
   "latin2_czech_cs",
   "dec8_swedish_ci",
   "cp850_general_ci",
   "latin1_german1_ci",
   "hp8_english_ci",
   "koi8r_general_ci",
   "latin1_swedish_ci",
   "latin2_general_ci",
   "swe7_swedish_ci",
   "ascii_general_ci",
   "ujis_japanese_ci",
   "sjis_japanese_ci",
   "cp1251_bulgarian_ci",
   "latin1_danish_ci",
   "hebrew_general_ci",
   "tis620_thai_ci",
   "euckr_korean_ci",
   "latin7_estonian_cs",
   "latin2_hungarian_ci",
   "koi8u_general_ci",
   "cp1251_ukrainian_ci",
   "gb2312_chinese_ci",
   "greek_general_ci",
   "cp1250_general_ci",
   "latin2_croatian_ci",
   "gbk_chinese_ci",
   "cp1257_lithuanian_ci",
   "latin5_turkish_ci",
   "latin1_german2_ci",
   "armscii8_general_ci",
   "utf8_general_ci",
   "cp1250_czech_cs",
   "ucs2_general_ci",
   "cp866_general_ci",
   "keybcs2_general_ci",
   "macce_general_ci",
   "macroman_general_ci",
   "cp852_general_ci",
   "latin7_general_ci",
   "latin7_general_cs",
   "macce_bin",
   "cp1250_croatian_ci",
   "utf8mb4_general_ci",
   "utf8mb4_bin",
   "latin1_bin",
   "latin1_general_ci",
   "latin1_general_cs",
   "cp1251_bin",
   "cp1251_general_ci",
   "cp1251_general_cs",
   "macroman_bin",
   "utf16_general_ci",
   "utf16_bin",
   "utf16le_general_ci",
   "cp1256_general_ci",
   "cp1257_bin",
   "cp1257_general_ci",
   "utf32_general_ci",
   "utf32_bin",
   "utf16le_bin",
   "binary",
   "armscii8_bin",
   "ascii_bin",
   "cp1250_bin",
   "cp1256_bin",
   "cp866_bin",
   "dec8_bin",
   "greek_bin",
   "hebrew_bin",
   "hp8_bin",
   "keybcs2_bin",
   "koi8r_bin",
   "koi8u_bin",
   "utf8_tolower_ci",
   "latin2_bin",
   "latin5_bin",
   "latin7_bin",
   "cp850_bin",
   "cp852_bin",
   "swe7_bin",
   "utf8_bin",
   "big5_bin",
   "euckr_bin",
   "gb2312_bin",
   "gbk_bin",
   "sjis_bin",
   "tis620_bin",
   "ucs2_bin",
   "ujis_bin",
   "geostd8_general_ci",
   "geostd8_bin",
   "latin1_spanish_ci",
   "cp932_japanese_ci",
   "cp932_bin",
   "eucjpms_japanese_ci",
   "eucjpms_bin",
   "cp1250_polish_ci",
   "utf16_unicode_ci",
   "utf16_icelandic_ci",
   "utf16_latvian_ci",
   "utf16_romanian_ci",
   "utf16_slovenian_ci",
   "utf16_polish_ci",
   "utf16_estonian_ci",
   "utf16_spanish_ci",
   "utf16_swedish_ci",
   "utf16_turkish_ci",
   "utf16_czech_ci",
   "utf16_danish_ci",
   "utf16_lithuanian_ci",
   "utf16_slovak_ci",
   "utf16_spanish2_ci",
   "utf16_roman_ci",
   "utf16_persian_ci",
   "utf16_esperanto_ci",
   "utf16_hungarian_ci",
   "utf16_sinhala_ci",
   "utf16_german2_ci",
   "utf16_croatian_ci",
   "utf16_unicode_520_ci",
   "utf16_vietnamese_ci",
   "ucs2_unicode_ci",
   "ucs2_icelandic_ci",
   "ucs2_latvian_ci",
   "ucs2_romanian_ci",
   "ucs2_slovenian_ci",
   "ucs2_polish_ci",
   "ucs2_estonian_ci",
   "ucs2_spanish_ci",
   "ucs2_swedish_ci",
   "ucs2_turkish_ci",
   "ucs2_czech_ci",
   "ucs2_danish_ci",
   "ucs2_lithuanian_ci",
   "ucs2_slovak_ci",
   "ucs2_spanish2_ci",
   "ucs2_roman_ci",
   "ucs2_persian_ci",
   "ucs2_esperanto_ci",
   "ucs2_hungarian_ci",
   "ucs2_sinhala_ci",
   "ucs2_german2_ci",
   "ucs2_croatian_ci",
   "ucs2_unicode_520_ci",
   "ucs2_vietnamese_ci",
   "ucs2_general_mysql500_ci",
   "utf32_unicode_ci",
   "utf32_icelandic_ci",
   "utf32_latvian_ci",
   "utf32_romanian_ci",
   "utf32_slovenian_ci",
   "utf32_polish_ci",
   "utf32_estonian_ci",
   "utf32_spanish_ci",
   "utf32_swedish_ci",
   "utf32_turkish_ci",
   "utf32_czech_ci",
   "utf32_danish_ci",
   "utf32_lithuanian_ci",
   "utf32_slovak_ci",
   "utf32_spanish2_ci",
   "utf32_roman_ci",
   "utf32_persian_ci",
   "utf32_esperanto_ci",
   "utf32_hungarian_ci",
   "utf32_sinhala_ci",
   "utf32_german2_ci",
   "utf32_croatian_ci",
   "utf32_unicode_520_ci",
   "utf32_vietnamese_ci",
   "utf8_unicode_ci",
   "utf8_icelandic_ci",
   "utf8_latvian_ci",
   "utf8_romanian_ci",
   "utf8_slovenian_ci",
   "utf8_polish_ci",
   "utf8_estonian_ci",
   "utf8_spanish_ci",
   "utf8_swedish_ci",
   "utf8_turkish_ci",
   "utf8_czech_ci",
   "utf8_danish_ci",
   "utf8_lithuanian_ci",
   "utf8_slovak_ci",
   "utf8_spanish2_ci",
   "utf8_roman_ci",
   "utf8_persian_ci",
   "utf8_esperanto_ci",
   "utf8_hungarian_ci",
   "utf8_sinhala_ci",
   "utf8_german2_ci",
   "utf8_croatian_ci",
   "utf8_unicode_520_ci",
   "utf8_vietnamese_ci",
   "utf8_general_mysql500_ci",
   "utf8mb4_unicode_ci",
   "utf8mb4_icelandic_ci",
   "utf8mb4_latvian_ci",
   "utf8mb4_romanian_ci",
   "utf8mb4_slovenian_ci",
   "utf8mb4_polish_ci",
   "utf8mb4_estonian_ci",
   "utf8mb4_spanish_ci",
   "utf8mb4_swedish_ci",
   "utf8mb4_turkish_ci",
   "utf8mb4_czech_ci",
   "utf8mb4_danish_ci",
   "utf8mb4_lithuanian_ci",
   "utf8mb4_slovak_ci",
   "utf8mb4_spanish2_ci",
   "utf8mb4_roman_ci",
   "utf8mb4_persian_ci",
   "utf8mb4_esperanto_ci",
   "utf8mb4_hungarian_ci",
   "utf8mb4_sinhala_ci",
   "utf8mb4_german2_ci",
   "utf8mb4_croatian_ci",
   "utf8mb4_unicode_520_ci",
   "utf8mb4_vietnamese_ci",
   "gb18030_chinese_ci",
   "gb18030_bin",
   "gb18030_unicode_520_ci",
   "utf8mb4_0900_ai_ci",
   "utf8mb4_de_pb_0900_ai_ci",
   "utf8mb4_is_0900_ai_ci",
   "utf8mb4_lv_0900_ai_ci",
   "utf8mb4_ro_0900_ai_ci",
   "utf8mb4_sl_0900_ai_ci",
   "utf8mb4_pl_0900_ai_ci",
   "utf8mb4_et_0900_ai_ci",
   "utf8mb4_es_0900_ai_ci",
   "utf8mb4_sv_0900_ai_ci",
   "utf8mb4_tr_0900_ai_ci",
   "utf8mb4_cs_0900_ai_ci",
   "utf8mb4_da_0900_ai_ci",
   "utf8mb4_lt_0900_ai_ci",
   "utf8mb4_sk_0900_ai_ci",
   "utf8mb4_es_trad_0900_ai_ci",
   "utf8mb4_la_0900_ai_ci",
   "utf8mb4_eo_0900_ai_ci",
   "utf8mb4_hu_0900_ai_ci",
   "utf8mb4_hr_0900_ai_ci",
   "utf8mb4_vi_0900_ai_ci",
   "utf8mb4_0900_as_cs",
   "utf8mb4_de_pb_0900_as_cs",
   "utf8mb4_is_0900_as_cs",
   "utf8mb4_lv_0900_as_cs",
   "utf8mb4_ro_0900_as_cs",
   "utf8mb4_sl_0900_as_cs",
   "utf8mb4_pl_0900_as_cs",
   "utf8mb4_et_0900_as_cs",
   "utf8mb4_es_0900_as_cs",
   "utf8mb4_sv_0900_as_cs",
   "utf8mb4_tr_0900_as_cs",
   "utf8mb4_cs_0900_as_cs",
   "utf8mb4_da_0900_as_cs",
   "utf8mb4_lt_0900_as_cs",
   "utf8mb4_sk_0900_as_cs",
   "utf8mb4_es_trad_0900_as_cs",
   "utf8mb4_la_0900_as_cs",
   "utf8mb4_eo_0900_as_cs",
   "utf8mb4_hu_0900_as_cs",
   "utf8mb4_hr_0900_as_cs",
   "utf8mb4_vi_0900_as_cs",
   "utf8mb4_ja_0900_as_cs",
   "utf8mb4_ja_0900_as_cs_ks",
   "utf8mb4_0900_as_ci",
   "utf8mb4_ru_0900_ai_ci",
   "utf8mb4_ru_0900_as_cs",
   "utf8mb4_zh_0900_as_cs",
   "utf8mb4_0900_bin"]

end mysql_consts

/-- The parsed MySQL/MariaDB server-greeting record
`mysql_server_greet` (mysql.hpp lines 424-443), field for field.
`len` is the 3-byte little-endian packet length; `salt_2`, `valid`,
`mariadb_ext_cap` carry their in-class initializers; the booleans
left unassigned by an early return are modelled as `false` (they are
indeterminate in the source and never read on an invalid record). -/
structure mysql_server_greet where
  len : Nat
  pkt_num : Nat
  proto : Nat
  version : datum
  thread_id : Nat
  salt_1 : datum
  cap : Nat
  collation : Nat
  srv_status : Nat
  ext_cap : Nat
  auth_plugin_len : Nat
  if_auth_plugin : Bool
  is_ver_less_41 : Bool
  is_mariadb : Bool
  partial_salt : Bool
  salt_2 : datum
  valid : Bool
  mariadb_ext_cap : Nat
  auth_plugin : datum
deriving DecidableEq

namespace mysql_server_greet

/-- The member-initializer list of `mysql_server_greet::mysql_server_greet`
(mysql.hpp lines 447-467): three single-byte reads assembled into `len`,
then `pkt_num`, `proto`, the NUL-delimited `version` sub-view (a failed
`find_delim` yields `datum{NULL,NULL}`), `thread_id` (4 bytes LE),
`salt_1` (9 bytes), `cap` (2 bytes LE), `collation` (1 byte),
`srv_status` (2 bytes LE), `ext_cap` (2 bytes LE) and
`auth_plugin_len` (1 byte).  All of these consume from the caller's
cursor before the constructor body runs.  Returns (record, cursor). -/
def initFields (pkt0 : datum) : mysql_server_greet × datum :=
  let r0 := datum.encoded pkt0 1 false
  let r1 := datum.encoded r0.2 1 false
  let r2 := datum.encoded r1.2 1 false
  let len := r0.1 + (r1.1 <<< 8) + (r2.1 <<< 16)
  let rn := datum.encoded r2.2 1 false
  let rp := datum.encoded rn.2 1 false
  let pkt := rp.2
  let rv : datum × datum :=
    match datum.find_delim pkt 0 with
    | none => (datum.nullAt 0, pkt)
    | some off => ({ off := pkt.off, bytes := pkt.bytes.take (off + 1), isNull := false },
                   datum.skip pkt (off + 1))
  let rt := datum.encoded rv.2 4 true
  let rs1 := datum.parseN rt.2 9
  let rc := datum.encoded rs1.2 2 true
  let rcol := datum.encoded rc.2 1 false
  let rst := datum.encoded rcol.2 2 true
  let rex := datum.encoded rst.2 2 true
  let ra := datum.encoded rex.2 1 false
  ({ len := len, pkt_num := rn.1, proto := rp.1, version := rv.1,
     thread_id := rt.1, salt_1 := rs1.1, cap := rc.1, collation := rcol.1,
     srv_status := rst.1, ext_cap := rex.1, auth_plugin_len := ra.1,
     if_auth_plugin := false, is_ver_less_41 := false, is_mariadb := false,
     partial_salt := false, salt_2 := datum.nullAt 0, valid := true,
     mariadb_ext_cap := 0, auth_plugin := datum.nullAt 0 }, ra.2)

/-- The constructor body of `mysql_server_greet::mysql_server_greet`
(mysql.hpp lines 468-504): the version validity check, the version-derived
flags, the MariaDB heuristic with its 6-byte skip and 4-byte
extended-capability read (`encoded<uint32_t>{pkt}` — default byte order,
i.e. big-endian) versus the MySQL 10-byte skip, the optional 13-byte
second salt with its terminator check, the optional auth-plugin name,
and the trailing-bytes check.  Character constants: 0x34 is the digit 4,
0x31 the digit 1, 0x35 the digit 5. -/
def body (r : mysql_server_greet) (pkt : datum) : mysql_server_greet × datum :=
  if r.version.length < 6 ∨ r.version.lastByte ≠ 0 then
    ({ r with valid := false }, pkt)
  else
    let if_auth_plugin := r.auth_plugin_len > 0
    let maj_ver := r.version.byteAt 0
    let min_ver := r.version.byteAt 2
    let is_ver_less_41 := maj_ver < 0x34 ∨ (maj_ver = 0x34 ∧ min_ver < 0x31)
    if maj_ver < 0x35 ∧ if_auth_plugin then
      ({ r with if_auth_plugin := if_auth_plugin, is_ver_less_41 := is_ver_less_41,
                valid := false }, pkt)
    else
      let partial_salt := !is_ver_less_41
      let is_mariadb := r.version.length > 9 ∨ r.cap % 2 = 0
      let rm : Nat × datum :=
        if is_mariadb then datum.encoded (datum.skip pkt 6) 4 false
        else (0, datum.skip pkt 10)
      let r1 := { r with if_auth_plugin := if_auth_plugin,
                         is_ver_less_41 := is_ver_less_41,
                         partial_salt := partial_salt, is_mariadb := is_mariadb,
                         mariadb_ext_cap := rm.1 }
      let pkt := rm.2
      if partial_salt then
        let rs2 := datum.parseN pkt 13
        let r2 := { r1 with salt_2 := rs2.1 }
        if rs2.1.length ≠ 13 ∨ rs2.1.lastByte ≠ 0 then
          ({ r2 with valid := false }, rs2.2)
        else
          let rap : datum × datum :=
            if if_auth_plugin then datum.parseN rs2.2 (r.auth_plugin_len + 1)
            else (r.auth_plugin, rs2.2)
          ({ r2 with auth_plugin := rap.1, valid := rap.2.length = 0 }, rap.2)
      else
        let rap : datum × datum :=
          if if_auth_plugin then datum.parseN pkt (r.auth_plugin_len + 1)
          else (r.auth_plugin, pkt)
        ({ r1 with auth_plugin := rap.1, valid := rap.2.length = 0 }, rap.2)

/-- The whole constructor `mysql_server_greet::mysql_server_greet`:
member-initializer list followed by the body. -/
def parse (pkt0 : datum) : mysql_server_greet × datum :=
  let ri := initFields pkt0
  body ri.1 ri.2

/-- `mysql_server_greet::is_not_empty()` (mysql.hpp line 506). -/
def is_not_empty (g : mysql_server_greet) : Bool :=
  g.valid

/-- C array access at a (possibly negative) int index: `some` entry when the
index is within bounds, `none` for an out-of-bounds read. -/
def arrayAt (l : List String) (i : Int) : Option String :=
  if 0 ≤ i ∧ i < l.length then some (l.getD i.toNat "") else none

/-- The collation lookup performed by `mysql_server_greet::write_json`
(mysql.hpp line 529): `mysql_collations[collation.value() - 1]`, where
`collation.value()` is a `uint8_t` promoted to int, so id 0 yields
index -1.  No bounds check appears in the source. -/
def collation_lookup (g : mysql_server_greet) : Option String :=
  arrayAt mysql_consts.mysql_collations ((g.collation : Int) - 1)

end mysql_server_greet

/-- The template `rotl<bits, T>` (tofsee.hpp lines 12-15) at `T = uint8_t`:
`(x << bits) | (x >> (8 - bits))`, truncated to 8 bits on return. -/
def rotl (bits x : Nat) : Nat :=
  ((x <<< bits) ||| (x >>> (8 - bits))) % 256

/-- Modelled from the spec: `__builtin_popcount` (compiler intrinsic) on a
byte value — the Hamming weight.  Fuelled structural recursion so that it
evaluates by kernel reduction; the fuel `n` always suffices. -/
def popcountAux : Nat → Nat → Nat
  | 0, _ => 0
  | _ + 1, 0 => 0
  | fuel + 1, n + 1 => (n + 1) % 2 + popcountAux fuel ((n + 1) / 2)

/-- Population count (Hamming weight) of a natural number. -/
def popcount (n : Nat) : Nat :=
  popcountAux n n

namespace tofsee_initial_message

/-- The recursion inside `tofsee_initial_message::decrypt`
(tofsee.hpp lines 49-56): running state byte `res`, plaintext byte
`res ^ rotl<5>(c)`, next state `c ^ 0xc6`. -/
def decryptFrom (res : Nat) : List Nat → List Nat
  | [] => []
  | c :: rest => (res ^^^ rotl 5 c) :: decryptFrom (c ^^^ 0xc6) rest

/-- `tofsee_initial_message::decrypt`: state initialized to 198 (= 0xc6). -/
def decrypt (ct : List Nat) : List Nat :=
  decryptFrom 198 ct

/-- `tofsee_initial_message::plaintext::plaintext` (tofsee.hpp lines 61-69):
if the caller's datum is not exactly 200 bytes, the caller's datum is set
null and the plaintext stays the default null datum; otherwise the 200
bytes are decrypted into an internal buffer (modelled at offset 0 of its
own buffer) and the caller's datum is left untouched.
Returns (plaintext datum, caller's datum). -/
def plaintext (d : datum) : datum × datum :=
  if d.length ≠ 200 then (datum.nullAt 0, d.set_null)
  else ({ off := 0, bytes := decrypt d.bytes, isNull := false }, d)

end tofsee_initial_message

/-- The record `tofsee_initial_message` (tofsee.hpp lines 47-89): the
decrypted plaintext cursor after field extraction and the five fixed-width
field sub-views sliced from it by the member initializers
(128 + 16 + 4 + 4 + 48 = 200 bytes). -/
structure tofsee_initial_message where
  pt : datum
  key : datum
  unknown_1 : datum
  ipv4 : datum
  srv_time : datum
  unknown_2 : datum
deriving DecidableEq

namespace tofsee_initial_message

/-- The constructor `tofsee_initial_message::tofsee_initial_message`
(tofsee.hpp lines 83-89): decrypt into `pt`, then slice `key` (128),
`unknown_1` (16), `ipv4` (4), `srv_time` (4), `unknown_2` (48) from `pt`.
Returns (record, caller's datum after construction). -/
def construct (ct : datum) : tofsee_initial_message × datum :=
  let rp := plaintext ct
  let rk := datum.parseN rp.1 128
  let r1 := datum.parseN rk.2 16
  let ri := datum.parseN r1.2 4
  let rt := datum.parseN ri.2 4
  let r2 := datum.parseN rt.2 48
  ({ pt := r2.2, key := rk.1, unknown_1 := r1.1, ipv4 := ri.1,
     srv_time := rt.1, unknown_2 := r2.1 }, rp.2)

/-- `tofsee_initial_message::is_not_empty` (tofsee.hpp lines 104-116):
reject when `unknown_2` is null (wrong input size), otherwise accept iff
the total Hamming weight of the `unknown_1` bytes is strictly below the
threshold 16. -/
def is_not_empty (t : tofsee_initial_message) : Bool :=
  if !t.unknown_2.is_not_null then false
  else (t.unknown_1.bytes.map popcount).sum < 16

end tofsee_initial_message

/-- Modelled from the spec: the UDP message-type tags
`enum udp_msg_type` (proto_identify.h, not in the source tree; tags per
spec section 3). -/
inductive udp_msg_type where
  | udp_msg_type_unknown
  | udp_msg_type_dhcp
  | udp_msg_type_dtls_client_hello
  | udp_msg_type_dtls_server_hello
  | udp_msg_type_dns
  | udp_msg_type_wireguard
  | udp_msg_type_quic
deriving DecidableEq

/-- `dhcp_client_mask` (udp.cc lines 75-77). -/
def dhcp_client_mask : List Nat := [0xff, 0xff, 0xff, 0xff, 0x00, 0x00, 0x00, 0x00]
/-- `dhcp_client_value` (udp.cc lines 71-73). -/
def dhcp_client_value : List Nat := [0x01, 0x01, 0x06, 0x00, 0x00, 0x00, 0x00, 0x00]
/-- `dtls_client_hello_mask` (udp.cc lines 24-27). -/
def dtls_client_hello_mask : List Nat :=
  [0xff, 0xff, 0xf0, 0x00, 0x00, 0x00, 0x00, 0x00,
   0x00, 0x00, 0x00, 0x00, 0x00, 0xff, 0x00, 0x00]
/-- `dtls_client_hello_value` (udp.cc lines 29-32). -/
def dtls_client_hello_value : List Nat :=
  [0x16, 0xfe, 0xf0, 0x00, 0x00, 0x00, 0x00, 0x00,
   0x00, 0x00, 0x00, 0x00, 0x00, 0x01, 0x00, 0x00]
/-- `dtls_server_hello_mask` (udp.cc lines 49-52). -/
def dtls_server_hello_mask : List Nat :=
  [0xff, 0xff, 0xf0, 0x00, 0x00, 0x00, 0x00, 0x00,
   0x00, 0x00, 0x00, 0x00, 0x00, 0xff, 0x00, 0x00]
/-- `dtls_server_hello_value` (udp.cc lines 54-57). -/
def dtls_server_hello_value : List Nat :=
  [0x16, 0xfe, 0xf0, 0x00, 0x00, 0x00, 0x00, 0x00,
   0x00, 0x00, 0x00, 0x00, 0x00, 0x02, 0x00, 0x00]
/-- `dns_server_mask` (udp.cc lines 93-95). -/
def dns_server_mask : List Nat := [0x00, 0x00, 0xff, 0xff, 0xff, 0x00, 0xff, 0x00]
/-- `dns_server_value` (udp.cc lines 96-98). -/
def dns_server_value : List Nat := [0x00, 0x00, 0x81, 0x80, 0x00, 0x00, 0x00, 0x00]
/-- `dns_client_mask` (udp.cc lines 105-107). -/
def dns_client_mask : List Nat := [0x00, 0x00, 0xff, 0xff, 0xff, 0x00, 0xff, 0x00]
/-- `dns_client_value` (udp.cc lines 108-110). -/
def dns_client_value : List Nat := [0x00, 0x00, 0x01, 0x00, 0x00, 0x00, 0x00, 0x00]
/-- `wireguard_mask` (udp.cc lines 121-123). -/
def wireguard_mask : List Nat := [0xff, 0xff, 0xff, 0xff, 0x00, 0x00, 0x00, 0x00]
/-- `wireguard_value` (udp.cc lines 124-126). -/
def wireguard_value : List Nat := [0x01, 0x00, 0x00, 0x00, 0x00, 0x00, 0x00, 0x00]
/-- `quic_mask` (udp.cc lines 137-139). -/
def quic_mask : List Nat := [0xf0, 0x00, 0xff, 0xff, 0x00, 0x00, 0x00, 0x00]
/-- `quic_value` (udp.cc lines 140-142). -/
def quic_value : List Nat := [0xc0, 0x00, 0x00, 0x00, 0x00, 0x00, 0x00, 0x00]

/-- The byte-wise masked compare over the first `n` bytes of the buffer:
`(buf[i] & mask[i]) == value[i]` for every `i < n`. -/
def maskedMatch (buf mask value : List Nat) (n : Nat) : Bool :=
  (List.range n).all fun i => buf.getD i 0 &&& mask.getD i 0 == value.getD i 0

/-- Modelled from the spec: `u32_compare_masked_data_to_value` /
`u64_compare_masked_data_to_value` (utils.h, not in the source tree): a
fixed-width mask-and-value comparison reading `n` bytes from the buffer —
8 bytes for the u32 variant, 16 for the u64 variant (spec sections 3, 4.3).
The functions take no length argument; when the buffer holds fewer than `n`
bytes the read runs past its end, which the model reports as `none`. -/
def compare_masked (buf : List Nat) (n : Nat) (mask value : List Nat) : Option Bool :=
  if n ≤ buf.length then some (maskedMatch buf mask value n) else none

/-- `udp_get_message_type` (udp.cc lines 150-200): return `unknown` when
`len < sizeof(dhcp_client_mask)` (= 8); otherwise evaluate the rules in
source order — DHCP client (8 bytes), DTLS client hello (16), DTLS server
hello (16), DNS server (8), DNS client (8), WireGuard (8), QUIC (8) —
returning the tag of the first compare that reports a match.  A compare
that reads past the end of the buffer makes the result `none`. -/
def udp_get_message_type (buf : List Nat) : Option udp_msg_type :=
  if buf.length < 8 then some .udp_msg_type_unknown
  else match compare_masked buf 8 dhcp_client_mask dhcp_client_value with
  | none => none
  | some true => some .udp_msg_type_dhcp
  | some false =>
    match compare_masked buf 16 dtls_client_hello_mask dtls_client_hello_value with
    | none => none
    | some true => some .udp_msg_type_dtls_client_hello
    | some false =>
      match compare_masked buf 16 dtls_server_hello_mask dtls_server_hello_value with
      | none => none
      | some true => some .udp_msg_type_dtls_server_hello
      | some false =>
        match compare_masked buf 8 dns_server_mask dns_server_value with
        | none => none
        | some true => some .udp_msg_type_dns
        | some false =>
          match compare_masked buf 8 dns_client_mask dns_client_value with
          | none => none
          | some true => some .udp_msg_type_dns
          | some false =>
            match compare_masked buf 8 wireguard_mask wireguard_value with
            | none => none
            | some true => some .udp_msg_type_wireguard
            | some false =>
              match compare_masked buf 8 quic_mask quic_value with
              | none => none
              | some true => some .udp_msg_type_quic
              | some false => some .udp_msg_type_unknown

/-- Spec-side (claim C8 wording): the ordered rule list of the UDP
dispatcher — (required length, mask, value, tag) in priority order. -/
def udp_rules : List (Nat × List Nat × List Nat × udp_msg_type) :=
  [(8, dhcp_client_mask, dhcp_client_value, .udp_msg_type_dhcp),
   (16, dtls_client_hello_mask, dtls_client_hello_value, .udp_msg_type_dtls_client_hello),
   (16, dtls_server_hello_mask, dtls_server_hello_value, .udp_msg_type_dtls_server_hello),
   (8, dns_server_mask, dns_server_value, .udp_msg_type_dns),
   (8, dns_client_mask, dns_client_value, .udp_msg_type_dns),
   (8, wireguard_mask, wireguard_value, .udp_msg_type_wireguard),
   (8, quic_mask, quic_value, .udp_msg_type_quic)]

/-- Spec-side (claim C8 wording): the tag of the first rule of
`udp_rules` whose mask/value compare matches the buffer, `unknown` when
none matches. -/
def firstMatchTag (buf : List Nat) : udp_msg_type :=
  match udp_rules.find? (fun r => maskedMatch buf r.2.1 r.2.2.1 r.1) with
  | some r => r.2.2.2
  | none => .udp_msg_type_unknown

/-- First occurrence of the two-byte CRLF delimiter (13, 10) in a byte
list: the scan underlying `parser_skip_upto_delim` with `delim = crlf`
(extractor, modelled from the spec: "scans forward for the first
occurrence of a given multi-byte delimiter string", section 4.1). -/
def findCRLF : List Nat → Option Nat
  | [] => none
  | [_] => none
  | a :: b :: rest =>
    if a = 13 ∧ b = 10 then some 0 else (findCRLF (b :: rest)).map (· + 1)

/-- The loop of `http_headers::parse` (http.h lines 20-28) over the byte
list of the cursor, with fuel for structural recursion (the remaining
length strictly decreases, so fuel `length + 1` always suffices).
Returns (complete, bytes consumed, cursor nulled).
Modelled from the spec, extractor functions not in the source tree:
`parser_get_data_length` is the remaining length; `parser_match` compares
the CRLF pair against the front and consumes it on success (section 8:
the cursor ends exactly after the terminating blank line);
`parser_skip_upto_delim` advances past the first occurrence of the
delimiter, and nulls the cursor when the delimiter is absent
(section 4.1), which moves the cursor to its end. -/
def scanHeadersF : Nat → List Nat → Bool × Nat × Bool
  | 0, _ => (false, 0, false)
  | fuel + 1, l =>
    if l.length = 0 then (false, 0, false)
    else if l.take 2 = [13, 10] then (true, 2, false)
    else
      match findCRLF l with
      | some i =>
        let r := scanHeadersF fuel (l.drop (i + 2))
        (r.1, i + 2 + r.2.1, r.2.2)
      | none => (false, l.length, true)

/-- `struct http_headers` (http.h lines 11-14): a datum spanning the
header block (`data`/`data_end` as offsets) plus the `complete` flag. -/
structure http_headers where
  data : Nat
  data_end : Nat
  complete : Bool
deriving DecidableEq

/-- `http_headers::parse` (http.h lines 16-30): record the start position,
run the scan loop, and set `data_end` to the cursor position where
scanning stopped.  Returns (headers, cursor after parsing). -/
def http_headers.parse (p : datum) : http_headers × datum :=
  let bs := if p.isNull then [] else p.bytes
  let r := scanHeadersF (bs.length + 1) bs
  let pFinal : datum := { off := p.off + r.2.1, bytes := bs.drop r.2.1,
                          isNull := p.isNull || r.2.2 }
  ({ data := p.off, data_end := pFinal.off, complete := r.1 }, pFinal)

/-- Spec-side (claim C9 wording): a CRLF pair sits at index `i` of the
byte list, within bounds. -/
def crlfAt (l : List Nat) (i : Nat) : Prop :=
  i + 1 < l.length ∧ l.getD i 0 = 13 ∧ l.getD (i + 1) 0 = 10

instance (l : List Nat) (i : Nat) : Decidable (crlfAt l i) := by
  unfold crlfAt; infer_instance

/-- A 46-byte server greeting classified as MariaDB: version string
"10.3.39-x" plus NUL (10 bytes, longer than 9), no auth plugin,
capability bits clear, then the 6 reserved bytes and the four
extended-capability bytes 01 02 03 04. -/
def c1_packet : List Nat :=
  [0, 0, 0, 0, 10,
   49, 48, 46, 51, 46, 51, 57, 45, 120, 0,
   1, 0, 0, 0,
   65, 65, 65, 65, 65, 65, 65, 65, 0,
   0, 0, 8, 0, 0, 0, 0, 0,
   0, 0, 0, 0, 0, 0,
   1, 2, 3, 4]

/-- A 55-byte fully valid MySQL greeting ("5.7.0", capability bit 0 set,
13-byte second salt ending in NUL, no auth plugin) whose collation id
byte is 0. -/
def c2_packet : List Nat :=
  [0, 0, 0, 0, 10,
   53, 46, 55, 46, 48, 0,
   1, 0, 0, 0,
   65, 65, 65, 65, 65, 65, 65, 65, 0,
   1, 0, 0, 2, 0, 0, 0, 0,
   0, 0, 0, 0, 0, 0, 0, 0, 0, 0,
   66, 66, 66, 66, 66, 66, 66, 66, 66, 66, 66, 66, 0]

/-- A 28-byte packet whose version string is "a" plus NUL (2 bytes, below
the 6-byte minimum), followed by exactly the 21 bytes that the member
initializers consume for thread id (4), salt_1 (9), capability (2),
collation (1), server status (2), extended capability (2) and
auth-plugin length (1). -/
def c4_packet : List Nat :=
  [0, 0, 0, 0, 10,
   97, 0,
   1, 0, 0, 0,
   65, 65, 65, 65, 65, 65, 65, 65, 65,
   1, 0, 8, 2, 0, 0, 0, 0]

/-- A 55-byte MySQL greeting ("5.7.0", capability bit 0 set, valid 13-byte
second salt) that declares auth-plugin length 4 but is truncated before
the 5-byte auth-plugin-name read: the cursor nulls itself there. -/
def c5_packet : List Nat :=
  [0, 0, 0, 0, 10,
   53, 46, 55, 46, 48, 0,
   1, 0, 0, 0,
   65, 65, 65, 65, 65, 65, 65, 65, 0,
   1, 0, 8, 2, 0, 0, 0, 4,
   0, 0, 0, 0, 0, 0, 0, 0, 0, 0,
   66, 66, 66, 66, 66, 66, 66, 66, 66, 66, 66, 66, 0]

/-- `decryptFrom` preserves the byte count. -/
theorem decryptFrom_length (res : Nat) (ct : List Nat) :
    (tofsee_initial_message.decryptFrom res ct).length = ct.length := by
  induction ct generalizing res with
  | nil => rfl
  | cons c rest ih => simp [tofsee_initial_message.decryptFrom, ih]

/-- Byte `i` of `decryptFrom res ct`: `res XOR rotl5(ct[0])` at index 0,
and `(ct[i-1] XOR 0xc6) XOR rotl5(ct[i])` afterwards. -/
theorem decryptFrom_getD (res : Nat) (ct : List Nat) (i : Nat) (h : i < ct.length) :
    (tofsee_initial_message.decryptFrom res ct).getD i 0 =
      if i = 0 then res ^^^ rotl 5 (ct.getD 0 0)
      else (ct.getD (i - 1) 0 ^^^ 0xc6) ^^^ rotl 5 (ct.getD i 0) := by
  induction ct generalizing res i with
  | nil => simp at h
  | cons c rest ih =>
    cases i with
    | zero => simp [tofsee_initial_message.decryptFrom]
    | succ k =>
      have hk : k < rest.length := by simpa using h
      simp only [tofsee_initial_message.decryptFrom, List.getD_cons_succ]
      rw [ih (c ^^^ 0xc6) k hk]
      cases k with
      | zero => simp
      | succ m => simp

/-- Indexing into a dropped prefix. -/
theorem getD_drop (l : List Nat) (n i : Nat) :
    (l.drop n).getD i 0 = l.getD (n + i) 0 := by
  induction n generalizing l with
  | zero => simp
  | succ n ih =>
    cases l with
    | nil => simp
    | cons a t =>
      rw [List.drop_succ_cons, ih t, Nat.succ_add, List.getD_cons_succ]

/-- There is no CRLF inside the empty list. -/
theorem crlfAt_nil (i : Nat) : ¬ crlfAt [] i := by
  unfold crlfAt
  simp

/-- Shifting a CRLF position across one leading byte. -/
theorem crlfAt_cons (a : Nat) (l : List Nat) (i : Nat) :
    crlfAt (a :: l) (i + 1) ↔ crlfAt l i := by
  unfold crlfAt
  simp only [List.getD_cons_succ, List.length_cons]
  constructor
  · rintro ⟨h1, h2, h3⟩
    exact ⟨by omega, h2, h3⟩
  · rintro ⟨h1, h2, h3⟩
    exact ⟨by omega, h2, h3⟩

/-- A CRLF at position 0 of a two-or-more byte list. -/
theorem crlfAt_cons_zero (a b : Nat) (l : List Nat) :
    crlfAt (a :: b :: l) 0 ↔ a = 13 ∧ b = 10 := by
  unfold crlfAt
  simp [List.getD]

/-- Shifting a CRLF position across a dropped prefix. -/
theorem crlfAt_drop (l : List Nat) (n i : Nat) :
    crlfAt (l.drop n) i ↔ crlfAt l (n + i) := by
  unfold crlfAt
  rw [getD_drop, getD_drop, List.length_drop]
  have h1 : n + (i + 1) = n + i + 1 := by omega
  rw [h1]
  constructor
  · rintro ⟨ha, hb, hc⟩
    exact ⟨by omega, hb, hc⟩
  · rintro ⟨ha, hb, hc⟩
    exact ⟨by omega, hb, hc⟩

/-- A found CRLF offset really carries a CRLF pair. -/
theorem findCRLF_some {l : List Nat} {i : Nat} (h : findCRLF l = some i) :
    crlfAt l i := by
  induction l generalizing i with
  | nil => simp [findCRLF] at h
  | cons a t ih =>
    cases t with
    | nil => simp [findCRLF] at h
    | cons b r =>
      rw [findCRLF] at h
      split at h
      · rename_i hc
        cases h
        exact (crlfAt_cons_zero a b r).mpr hc
      · rcases Option.map_eq_some'.mp h with ⟨j, hj, rfl⟩
        exact (crlfAt_cons a (b :: r) j).mpr (ih hj)

/-- The found CRLF offset is the first one. -/
theorem findCRLF_min {l : List Nat} {i : Nat} (h : findCRLF l = some i) :
    ∀ j, j < i → ¬ crlfAt l j := by
  induction l generalizing i with
  | nil => simp [findCRLF] at h
  | cons a t ih =>
    cases t with
    | nil => simp [findCRLF] at h
    | cons b r =>
      rw [findCRLF] at h
      split at h
      · cases h
        omega
      · rename_i hc
        rcases Option.map_eq_some'.mp h with ⟨k, hk, rfl⟩
        intro j hj
        cases j with
        | zero =>
          intro hcon
          exact hc ((crlfAt_cons_zero a b r).mp hcon)
        | succ m =>
          intro hcon
          exact ih hk m (by omega) ((crlfAt_cons a (b :: r) m).mp hcon)

/-- When no CRLF is found, there is none anywhere in the list. -/
theorem findCRLF_none {l : List Nat} (h : findCRLF l = none) :
    ∀ i, ¬ crlfAt l i := by
  induction l with
  | nil => exact crlfAt_nil
  | cons a t ih =>
    cases t with
    | nil =>
      intro i hcon
      rcases hcon with ⟨hlen, -, -⟩
      simp at hlen
    | cons b r =>
      rw [findCRLF] at h
      split at h
      · cases h
      · rename_i hc
        have hr : findCRLF (b :: r) = none := by
          cases hfind : findCRLF (b :: r) with
          | none => rfl
          | some k => rw [hfind] at h; simp at h
        intro i
        cases i with
        | zero =>
          intro hcon
          exact hc ((crlfAt_cons_zero a b r).mp hcon)
        | succ m =>
          intro hcon
          exact ih hr m ((crlfAt_cons a (b :: r) m).mp hcon)

/-- The `parser_match` front test: the first two bytes are CRLF exactly
when a CRLF pair sits at position 0. -/
theorem take_two_iff (l : List Nat) : l.take 2 = [13, 10] ↔ crlfAt l 0 := by
  cases l with
  | nil =>
    simp [crlfAt]
  | cons a t =>
    cases t with
    | nil =>
      constructor
      · intro h
        simp at h
      · intro h
        rcases h with ⟨hlen, -, -⟩
        simp at hlen
    | cons b r =>
      rw [crlfAt_cons_zero]
      constructor
      · intro h
        simp [List.take] at h
        exact h
      · rintro ⟨rfl, rfl⟩
        simp [List.take]

/-- The scan loop reports `complete` exactly when the byte list starts
with a CRLF pair or contains a CRLF pair immediately followed by another
one — i.e. an empty line at one of the line starts the scan visits. -/
theorem scanHeadersF_complete_iff :
    ∀ fuel l, l.length < fuel →
    ((scanHeadersF fuel l).1 = true ↔
      (crlfAt l 0 ∨ ∃ i, crlfAt l i ∧ crlfAt l (i + 2))) := by
  intro fuel
  induction fuel with
  | zero =>
    intro l h
    omega
  | succ f ih =>
    intro l hlen
    rw [scanHeadersF]
    by_cases h0 : l.length = 0
    · rw [if_pos h0]
      have hnil : l = [] := List.length_eq_zero.mp h0
      subst hnil
      constructor
      · intro hfalse
        simp at hfalse
      · rintro (h | ⟨i, hi, -⟩)
        · exact absurd h (crlfAt_nil 0)
        · exact absurd hi (crlfAt_nil i)
    · rw [if_neg h0]
      by_cases h2 : l.take 2 = [13, 10]
      · rw [if_pos h2]
        constructor
        · intro _
          exact Or.inl ((take_two_iff l).mp h2)
        · intro _
          rfl
      · rw [if_neg h2]
        have hnot0 : ¬ crlfAt l 0 := fun hc => h2 ((take_two_iff l).mpr hc)
        cases hfind : findCRLF l with
        | none =>
          have hnone := findCRLF_none hfind
          constructor
          · intro hfalse
            simp at hfalse
          · rintro (h | ⟨i, hi, -⟩)
            · exact absurd h (hnone 0)
            · exact absurd hi (hnone i)
        | some i =>
          have hci : crlfAt l i := findCRLF_some hfind
          have hmin := findCRLF_min hfind
          have hdrop : (l.drop (i + 2)).length < f := by
            rw [List.length_drop]
            rcases hci with ⟨hb, -, -⟩
            omega
          have hih := ih (l.drop (i + 2)) hdrop
          dsimp only
          rw [hih]
          constructor
          · rintro (hd0 | ⟨j, hj1, hj2⟩)
            · refine Or.inr ⟨i, hci, ?_⟩
              have h := (crlfAt_drop l (i + 2) 0).mp hd0
              simpa using h
            · refine Or.inr ⟨i + 2 + j, (crlfAt_drop l (i + 2) j).mp hj1, ?_⟩
              have h := (crlfAt_drop l (i + 2) (j + 2)).mp hj2
              have heq : i + 2 + (j + 2) = i + 2 + j + 2 := by omega
              rwa [heq] at h
          · rintro (h | ⟨m, hm1, hm2⟩)
            · exact absurd h hnot0
            · rcases Nat.lt_trichotomy m i with hmi | rfl | hmi
              · exact absurd hm1 (hmin m hmi)
              · refine Or.inl ?_
                rw [crlfAt_drop]
                simpa using hm2
              · have hm_ne : m ≠ i + 1 := by
                  intro hmeq
                  subst hmeq
                  rcases hci with ⟨-, -, h10⟩
                  rcases hm1 with ⟨-, h13, -⟩
                  rw [h13] at h10
                  omega
                refine Or.inr ⟨m - (i + 2), ?_, ?_⟩
                · rw [crlfAt_drop]
                  have heq : i + 2 + (m - (i + 2)) = m := by omega
                  rwa [heq]
                · rw [crlfAt_drop]
                  have heq : i + 2 + (m - (i + 2) + 2) = m + 2 := by omega
                  rwa [heq]

/-- `parse(n)` on a live cursor with enough bytes yields the sub-view and
the advanced source. -/
theorem parseN_success (o : Nat) (bs : List Nat) (n : Nat) (h : n ≤ bs.length) :
    datum.parseN ⟨o, bs, false⟩ n =
      (⟨o, bs.take n, false⟩, ⟨o + n, bs.drop n, false⟩) := by
  unfold datum.parseN
  rw [if_neg]
  simp only [Bool.false_eq_true, false_or, not_lt]
  exact h

/-- C1: for a greeting classified as MariaDB the parser skips 6 reserved
bytes and then reads the 4-byte extended-capability field; but the read is
`encoded<uint32_t>{pkt}` with the default (big-endian) byte order, not
little-endian as the claim states.  On `c1_packet`, whose four
extended-capability bytes are 01 02 03 04, the parsed value is the
big-endian interpretation 0x01020304 and differs from the little-endian
interpretation the claim requires. -/
theorem C1_mariadb_extcap_read_bigendian :
    (mysql_server_greet.parse ⟨0, c1_packet, false⟩).1.valid = true ∧
    (mysql_server_greet.parse ⟨0, c1_packet, false⟩).1.is_mariadb = true ∧
    (mysql_server_greet.parse ⟨0, c1_packet, false⟩).1.mariadb_ext_cap
      = datum.decodeUInt [1, 2, 3, 4] false ∧
    datum.decodeUInt [1, 2, 3, 4] false ≠ datum.decodeUInt [1, 2, 3, 4] true := by
  decide

/-- C2: `write_json` indexes `mysql_collations[collation.value() - 1]`
with no bounds check (mysql.hpp line 529).  `c2_packet` parses as a fully
valid greeting whose collation id byte is 0, and the lookup then reads
index -1, outside the bounds of the 272-entry table: the model reports
`none` (an out-of-bounds read). -/
theorem C2_collation_lookup_out_of_bounds :
    (mysql_server_greet.parse ⟨0, c2_packet, false⟩).1.valid = true ∧
    (mysql_server_greet.parse ⟨0, c2_packet, false⟩).1.collation = 0 ∧
    (mysql_server_greet.parse ⟨0, c2_packet, false⟩).1.collation_lookup = none := by
  decide

/-- C4 counterexample: on `c4_packet` the version string is 2 bytes
("a" plus NUL, below the 6-byte minimum), so the record is invalid — yet
the caller's cursor ends at offset 28, not at offset 7 (the position just
after the version string): the thread-id, salt_1, capability, collation,
server-status, extended-capability and auth-plugin-length fields were all
consumed by the member initializers before the version check ran. -/
theorem C4_fields_consumed_counterexample :
    (mysql_server_greet.parse ⟨0, c4_packet, false⟩).1.valid = false ∧
    (mysql_server_greet.parse ⟨0, c4_packet, false⟩).2.off = 28 ∧
    (mysql_server_greet.parse ⟨0, c4_packet, false⟩).2.off ≠ 7 := by
  decide

/-- C4 (amended): when the version string is shorter than 6 bytes or not
NUL-terminated, the record is marked invalid and the constructor body stops
immediately: the final state is exactly the member-initializer state with
`valid := false`, and the cursor is exactly where the member initializers
left it — no reserved-byte skip, MariaDB extended-capability read, second
salt fragment or auth-plugin name is consumed; the fixed header fields,
however, were already consumed by the member initializers. -/
theorem C4_version_invalid_stops_body (pkt0 : datum)
    (h : (mysql_server_greet.initFields pkt0).1.version.length < 6 ∨
         (mysql_server_greet.initFields pkt0).1.version.lastByte ≠ 0) :
    mysql_server_greet.parse pkt0 =
      ({ (mysql_server_greet.initFields pkt0).1 with valid := false },
       (mysql_server_greet.initFields pkt0).2) := by
  unfold mysql_server_greet.parse mysql_server_greet.body
  rw [if_pos h]

/-- Witness for C4 (amended) at the concrete packet `c4_packet`. -/
theorem C4_version_invalid_stops_body_witness :
    mysql_server_greet.parse ⟨0, c4_packet, false⟩ =
      ({ (mysql_server_greet.initFields ⟨0, c4_packet, false⟩).1 with valid := false },
       (mysql_server_greet.initFields ⟨0, c4_packet, false⟩).2) :=
  C4_version_invalid_stops_body ⟨0, c4_packet, false⟩ (by decide)

/-- C5: `c5_packet` is truncated exactly at the auth-plugin-name read: the
cursor nulls itself there (truncation), the auth-plugin sub-view is null —
yet no check follows that read, the nulled cursor reports length 0, so the
trailing-bytes check passes and the record reports `is_not_empty() = true`
instead of the `false` the claim requires. -/
theorem C5_truncated_auth_plugin_accepted :
    (mysql_server_greet.parse ⟨0, c5_packet, false⟩).2.isNull = true ∧
    (mysql_server_greet.parse ⟨0, c5_packet, false⟩).1.auth_plugin.isNull = true ∧
    (mysql_server_greet.parse ⟨0, c5_packet, false⟩).1.is_not_empty = true := by
  decide

/-- C3: the short-circuit half of the claim holds — any buffer shorter than
8 bytes yields `unknown` with no rule evaluated — but the bounds half
fails: on an 8-byte all-zero buffer (which passes the length guard and does
not match the 8-byte DHCP rule) the 16-byte DTLS client-hello compare reads
bytes 8..15 past the end of the buffer, which the model reports as `none`. -/
theorem C3_udp_short_unknown_but_dtls_reads_oob :
    (∀ buf : List Nat, buf.length < 8 →
      udp_get_message_type buf = some .udp_msg_type_unknown) ∧
    udp_get_message_type (List.replicate 8 0) = none := by
  constructor
  · intro buf h
    unfold udp_get_message_type
    rw [if_pos h]
  · decide

/-- Witness for C3 at concrete inputs: a 3-byte buffer is classified
`unknown` without rule evaluation, and the 8-byte all-zero buffer makes a
rule evaluation read out of bounds. -/
theorem C3_udp_short_unknown_but_dtls_reads_oob_witness :
    udp_get_message_type [0, 0, 0] = some .udp_msg_type_unknown ∧
    udp_get_message_type (List.replicate 8 0) = none :=
  ⟨C3_udp_short_unknown_but_dtls_reads_oob.1 [0, 0, 0] (by decide),
   C3_udp_short_unknown_but_dtls_reads_oob.2⟩

/-- C8: on every buffer long enough for all rules (16 bytes or more) the
dispatcher returns exactly the tag of the first matching rule of the
ordered list DHCP, DTLS client hello, DTLS server hello, DNS server,
DNS client, WireGuard, QUIC (`unknown` when none matches); and on every
buffer of at least 8 bytes that satisfies the DHCP-client rule the result
is the DHCP tag — in particular any input satisfying both the DHCP and
QUIC rules would return DHCP. -/
theorem C8_udp_first_match_priority :
    (∀ buf : List Nat, 16 ≤ buf.length →
      udp_get_message_type buf = some (firstMatchTag buf)) ∧
    (∀ buf : List Nat, 8 ≤ buf.length →
      maskedMatch buf dhcp_client_mask dhcp_client_value 8 = true →
      udp_get_message_type buf = some .udp_msg_type_dhcp) := by
  constructor
  · intro buf h16
    have h8 : (8 : Nat) ≤ buf.length := by omega
    unfold udp_get_message_type compare_masked
    rw [if_neg (by omega), if_pos h8, if_pos h16, if_pos h16, if_pos h8, if_pos h8,
        if_pos h8, if_pos h8]
    unfold firstMatchTag udp_rules
    cases hdhcp : maskedMatch buf dhcp_client_mask dhcp_client_value 8 <;>
    cases hdc : maskedMatch buf dtls_client_hello_mask dtls_client_hello_value 16 <;>
    cases hds : maskedMatch buf dtls_server_hello_mask dtls_server_hello_value 16 <;>
    cases hns : maskedMatch buf dns_server_mask dns_server_value 8 <;>
    cases hnc : maskedMatch buf dns_client_mask dns_client_value 8 <;>
    cases hwg : maskedMatch buf wireguard_mask wireguard_value 8 <;>
    cases hq : maskedMatch buf quic_mask quic_value 8 <;>
    simp [List.find?, hdhcp, hdc, hds, hns, hnc, hwg, hq]
  · intro buf h8 hm
    unfold udp_get_message_type compare_masked
    rw [if_neg (by omega), if_pos h8, hm]

/-- Witness for C8 at a concrete 16-byte DHCP-client packet. -/
theorem C8_udp_first_match_priority_witness :
    udp_get_message_type ([1, 1, 6, 0] ++ List.replicate 12 0)
      = some (firstMatchTag ([1, 1, 6, 0] ++ List.replicate 12 0)) ∧
    udp_get_message_type ([1, 1, 6, 0] ++ List.replicate 12 0)
      = some .udp_msg_type_dhcp :=
  ⟨C8_udp_first_match_priority.1 ([1, 1, 6, 0] ++ List.replicate 12 0) (by decide),
   C8_udp_first_match_priority.2 ([1, 1, 6, 0] ++ List.replicate 12 0) (by decide)
     (by decide)⟩

/-- C6: the record is accepted (`is_not_empty() = true`) exactly when the
input datum is 200 bytes long and the total Hamming weight of the 16
decrypted `unknown_1` bytes (plaintext bytes 128..143) is strictly below
16; any input of a different length is rejected regardless of content. -/
theorem C6_tofsee_accept_iff (ct : datum) :
    ((tofsee_initial_message.construct ct).1.is_not_empty = true) ↔
    (ct.length = 200 ∧
      ((((tofsee_initial_message.decrypt ct.bytes).drop 128).take 16).map popcount).sum
        < 16) := by
  by_cases h : ct.length = 200
  · obtain ⟨o, bs, b⟩ := ct
    have hnn : b = false := by
      by_cases hb : b = true
      · exfalso
        unfold datum.length at h
        rw [if_pos hb] at h
        omega
      · simpa using hb
    subst hnn
    have hlen : bs.length = 200 := by
      unfold datum.length at h
      simpa using h
    have hB : (tofsee_initial_message.decrypt bs).length = 200 := by
      unfold tofsee_initial_message.decrypt
      rw [decryptFrom_length, hlen]
    have e1 := parseN_success 0 (tofsee_initial_message.decrypt bs) 128 (by omega)
    have e2 := parseN_success 128 ((tofsee_initial_message.decrypt bs).drop 128) 16
      (by simp [hB])
    have e3 := parseN_success (128 + 16)
      (((tofsee_initial_message.decrypt bs).drop 128).drop 16) 4 (by simp [hB])
    have e4 := parseN_success (128 + 16 + 4)
      ((((tofsee_initial_message.decrypt bs).drop 128).drop 16).drop 4) 4 (by simp [hB])
    have e5 := parseN_success (128 + 16 + 4 + 4)
      (((((tofsee_initial_message.decrypt bs).drop 128).drop 16).drop 4).drop 4) 48
      (by simp [hB])
    unfold tofsee_initial_message.construct tofsee_initial_message.plaintext
    rw [if_neg (by simp [h])]
    dsimp only
    rw [e1]
    dsimp only
    rw [e2]
    dsimp only
    rw [e3]
    dsimp only
    rw [e4]
    dsimp only
    rw [e5]
    unfold tofsee_initial_message.is_not_empty datum.is_not_null
    simp [h]
  · constructor
    · intro hacc
      exfalso
      unfold tofsee_initial_message.construct tofsee_initial_message.plaintext at hacc
      rw [if_pos h] at hacc
      simp [datum.parseN, datum.nullAt, datum.set_null,
            tofsee_initial_message.is_not_empty, datum.is_not_null] at hacc
    · rintro ⟨h200, -⟩
      exact absurd h200 h

/-- C7: for every ciphertext the decrypt transform preserves the length,
plaintext byte 0 is `0xC6 XOR rotl(c0, 5)`, and plaintext byte `i > 0` is
`(c(i-1) XOR 0xC6) XOR rotl(ci, 5)` — an 8-bit left rotation by 5 with the
running state byte initialized to 198. -/
theorem C7_decrypt_byte_equations (ct : List Nat) :
    (tofsee_initial_message.decrypt ct).length = ct.length ∧
    ∀ i, i < ct.length →
      (tofsee_initial_message.decrypt ct).getD i 0 =
        if i = 0 then 0xc6 ^^^ rotl 5 (ct.getD 0 0)
        else (ct.getD (i - 1) 0 ^^^ 0xc6) ^^^ rotl 5 (ct.getD i 0) :=
  ⟨decryptFrom_length 198 ct, fun i h => decryptFrom_getD 198 ct i h⟩

/-- Witness for C7 at the concrete ciphertext [1, 2, 3], index 1. -/
theorem C7_decrypt_byte_equations_witness :
    (tofsee_initial_message.decrypt [1, 2, 3]).getD 1 0 =
      ([1, 2, 3].getD 0 0 ^^^ 0xc6) ^^^ rotl 5 ([1, 2, 3].getD 1 0) := by
  have h := (C7_decrypt_byte_equations [1, 2, 3]).2 1 (by decide)
  simpa using h

/-- C9: `http_headers::parse` sets `complete` exactly when an empty line —
a bare CRLF at one of the line starts the scan visits — occurs before the
cursor is exhausted (equivalently, the bytes start with CRLF or contain a
CRLF pair immediately followed by another), and the headers datum spans
from the starting position to the position where scanning stopped. -/
theorem C9_http_headers_complete_iff (p : datum) (hp : p.isNull = false) :
    ((http_headers.parse p).1.complete = true ↔
      (crlfAt p.bytes 0 ∨ ∃ i, crlfAt p.bytes i ∧ crlfAt p.bytes (i + 2))) ∧
    (http_headers.parse p).1.data = p.off ∧
    (http_headers.parse p).1.data_end = (http_headers.parse p).2.off := by
  have hs := scanHeadersF_complete_iff (p.bytes.length + 1) p.bytes (Nat.lt_succ_self _)
  unfold http_headers.parse
  rw [hp]
  simp only [Bool.false_eq_true, if_false]
  exact ⟨hs, trivial, trivial⟩

/-- Witness for C9 at the concrete header bytes "A\r\n\r\n": complete. -/
theorem C9_http_headers_complete_iff_witness :
    (http_headers.parse ⟨0, [65, 13, 10, 13, 10], false⟩).1.complete = true :=
  (C9_http_headers_complete_iff ⟨0, [65, 13, 10, 13, 10], false⟩ rfl).1.mpr
    (Or.inr ⟨1, by decide, by decide⟩)

/-- C10: the Tofsee constructor nulls the caller's datum whenever its
length is not exactly 200, and leaves the caller's datum completely
unchanged when it is exactly 200 bytes: all field slicing happens on the
internal decrypted copy, never on the input cursor. -/
theorem C10_tofsee_caller_frame (ct : datum) :
    (ct.length ≠ 200 → (tofsee_initial_message.construct ct).2 = ct.set_null) ∧
    (ct.length = 200 → (tofsee_initial_message.construct ct).2 = ct) := by
  constructor
  · intro h
    simp only [tofsee_initial_message.construct, tofsee_initial_message.plaintext,
               if_pos h]
  · intro h
    simp only [tofsee_initial_message.construct, tofsee_initial_message.plaintext,
               if_neg (by simp [h] : ¬ ct.length ≠ 200)]

set_option maxRecDepth 4000 in
/-- Witness for C10 at a 200-byte datum (unchanged) and a 2-byte datum
(nulled). -/
theorem C10_tofsee_caller_frame_witness :
    (tofsee_initial_message.construct ⟨0, List.replicate 200 0, false⟩).2
      = (⟨0, List.replicate 200 0, false⟩ : datum) ∧
    (tofsee_initial_message.construct ⟨5, [1, 2], false⟩).2
      = datum.set_null ⟨5, [1, 2], false⟩ :=
  ⟨(C10_tofsee_caller_frame ⟨0, List.replicate 200 0, false⟩).2 (by simp [datum.length]),
   (C10_tofsee_caller_frame ⟨5, [1, 2], false⟩).1 (by decide)⟩
